import Mathlib

/-!
Shallow embedding of the `iss_spotter` pipeline (src/iss.js and
src/iss_promised.js).  The network is modelled as a fixed assignment of
results to URLs; each resolver and the two orchestrators are translated
from the JavaScript source.  `JSON.parse` is modelled as an oracle
attached to each response body (`Body.parsed`), so that a body is valid
JSON exactly when the oracle returns `some` value.
-/

namespace IssSpotter

/-- JavaScript values flowing through the pipeline. -/
inductive JVal where
  | jnull
  | undefVal
  | str (s : String)
  | num (n : Int)
  | arr (elems : List JVal)
  | obj (fields : List (String × JVal))

/-- Field lookup on a JS object's field list; an absent key reads as
`undefined`. -/
def lookupField : List (String × JVal) → String → JVal
  | [], _ => .undefVal
  | (k, v) :: rest, key => if k = key then v else lookupField rest key

/-- JS property read `v.key` on a NON-NULLISH receiver: on an object the
field (undefined when absent), on any other primitive undefined for the
keys this program reads.  In JavaScript a property access on `null` or
`undefined` throws a TypeError instead; the resolvers below guard every
read of a `JSON.parse` result with `isNullish` and throw there, so this
function is only consulted on its faithful domain.  (The pass-time URL
construction reads `coords.lat`/`coords.lon` through this function
unguarded, as the orchestrator only ever supplies coordinate objects
there.) -/
def getField : JVal → String → JVal
  | .obj fs, key => lookupField fs key
  | _, _ => .undefVal

/-- JS strict equality `v === s` against a string literal: true exactly
when `v` is that string. -/
def isStr : JVal → String → Bool
  | .str t, s => t = s
  | _, _ => false

/-- Is the value `null` or `undefined`?  (These coerce to the empty string
inside an array join.) -/
def isNullish : JVal → Bool
  | .jnull => true
  | .undefVal => true
  | _ => false

mutual

/-- JS string coercion (`String(v)` / template-literal interpolation). -/
def tmpl : JVal → String
  | .jnull => "null"
  | .undefVal => "undefined"
  | .str s => s
  | .num n => toString n
  | .obj _ => "[object Object]"
  | .arr xs => tmplArr xs

/-- Array-to-string coercion: elements joined by commas, with `null` and
`undefined` elements coerced to the empty string. -/
def tmplArr : List JVal → String
  | [] => ""
  | [x] => if isNullish x then "" else tmpl x
  | x :: xs => (if isNullish x then "" else tmpl x) ++ "," ++ tmplArr xs

end

/-- A JS `Error` object, identified by its message. -/
structure JsError where
  message : String

/-- A thrown JS exception that escapes a callback. -/
inductive JsExn where
  | parseErr                     -- `JSON.parse` applied to malformed input
  | typeErr                      -- property access or destructuring on null/undefined
  | referenceErr (name : String) -- evaluating an undeclared identifier

/-- An HTTP response body: the raw text together with the result of
`JSON.parse` on it (`none` when the text is not valid JSON). -/
structure Body where
  raw : String
  parsed : Option JVal

/-- What the network returns for one URL. -/
inductive NetResult where
  | transportErr (e : JsError)
  | response (statusCode : Int) (body : Body)

/-- A fixed assignment of results to URLs: the world one pipeline
invocation runs in. -/
abbrev Env := String → NetResult

/-- Observable behaviour of one callback-style function: either the
callback is invoked once with `(err, value)`, or an exception escapes
and the callback is never invoked. -/
inductive CbOutcome where
  | called (err : Option JsError) (val : JVal)
  | thrown (exn : JsExn)

/-- URL queried by `fetchMyIP`. -/
def ipifyURL : String := "https://api64.ipify.org/?format=json"

/-- URL queried by `fetchCoordsByIP` (template literal over the ip value). -/
def geoURL (ip : JVal) : String := "http://ip-api.com/json/" ++ tmpl ip

/-- URL queried by `fetchISSFlyOverTimes` (template literal over lat/lon). -/
def passURL (lat lon : JVal) : String :=
  "http://api.open-notify.org/iss-pass.json?lat=" ++ tmpl lat ++
    "&lon=" ++ tmpl lon ++ "&n=5"

/-- src/iss.js `fetchMyIP`: transport error and non-200 status are passed
to the callback; otherwise the body is parsed (a parse failure throws a
SyntaxError, and `JSON.parse(body).ip` on a null parse result throws a
TypeError) and the `ip` field is passed back. -/
def fetchMyIP (net : Env) : CbOutcome :=
  match net ipifyURL with
  | .transportErr e => .called (some e) .jnull
  | .response code body =>
    if code ≠ 200 then
      .called (some ⟨"Status Code " ++ toString code ++
        " when fetching IP. Response: " ++ body.raw⟩) .jnull
    else
      match body.parsed with
      | none => .thrown .parseErr
      | some j =>
        if isNullish j then .thrown .typeErr
        else .called none (getField j "ip")

/-- src/iss.js `fetchCoordsByIP`: as `fetchMyIP`, plus a service-logic
check on the body's `status` field (`data.status` on a null parse
result throws a TypeError). -/
def fetchCoordsByIP (net : Env) (ip : JVal) : CbOutcome :=
  match net (geoURL ip) with
  | .transportErr e => .called (some e) .jnull
  | .response code body =>
    if code ≠ 200 then
      .called (some ⟨"Status Code " ++ toString code ++
        " when fetching coordinates. Response: " ++ body.raw⟩) .jnull
    else
      match body.parsed with
      | none => .thrown .parseErr
      | some data =>
        if isNullish data then .thrown .typeErr
        else if isStr (getField data "status") "fail" then
          .called (some ⟨"Coordinates api returned status fail. Response: " ++
            body.raw⟩) .jnull
        else
          .called none (.obj [("lat", getField data "lat"),
                              ("lon", getField data "lon")])

/-- src/iss.js `fetchISSFlyOverTimes`: as `fetchMyIP`, plus a
service-logic check on the body's `message` field (`data.message` on a
null parse result throws a TypeError); on success the body's `response`
field is passed back. -/
def fetchISSFlyOverTimes (net : Env) (coords : JVal) : CbOutcome :=
  match net (passURL (getField coords "lat") (getField coords "lon")) with
  | .transportErr e => .called (some e) .jnull
  | .response code body =>
    if code ≠ 200 then
      .called (some ⟨"Status Code " ++ toString code ++
        " when fetching iss data. Response: " ++ body.raw⟩) .jnull
    else
      match body.parsed with
      | none => .thrown .parseErr
      | some data =>
        if isNullish data then .thrown .typeErr
        else if isStr (getField data "message") "failure" then
          .called (some ⟨"ISS api returned status fail. Response: " ++
            body.raw⟩) .jnull
        else
          .called none (getField data "response")

/-- How many times each resolver ran during one orchestrator invocation. -/
structure Trace where
  ipCalls : Nat
  geoCalls : Nat
  passCalls : Nat

/-- src/iss.js `nextISSTimesForMyLocation`, paired with the trace of
resolver invocations.  In every error branch the source reads the
undeclared identifier `err` (the callback parameter is named `error`),
so evaluating the arguments of `callback(err, null)` throws a
ReferenceError and the caller's callback is never invoked; the next
stage is still never started. -/
def nextISSTimesForMyLocationT (net : Env) : CbOutcome × Trace :=
  match fetchMyIP net with
  | .thrown e => (.thrown e, ⟨1, 0, 0⟩)
  | .called (some _) _ => (.thrown (.referenceErr "err"), ⟨1, 0, 0⟩)
  | .called none ip =>
    match fetchCoordsByIP net ip with
    | .thrown e => (.thrown e, ⟨1, 1, 0⟩)
    | .called (some _) _ => (.thrown (.referenceErr "err"), ⟨1, 1, 0⟩)
    | .called none coords =>
      match fetchISSFlyOverTimes net coords with
      | .thrown e => (.thrown e, ⟨1, 1, 1⟩)
      | .called (some _) _ => (.thrown (.referenceErr "err"), ⟨1, 1, 1⟩)
      | .called none issTimes => (.called none issTimes, ⟨1, 1, 1⟩)

/-- src/iss.js `nextISSTimesForMyLocation`: the caller-visible outcome. -/
def nextISSTimesForMyLocation (net : Env) : CbOutcome :=
  (nextISSTimesForMyLocationT net).1

/-- A promise rejection reason. -/
inductive JsErr where
  | transport (e : JsError)                 -- request error, forwarded
  | statusCode (code : Int) (body : String) -- StatusCodeError (simple mode)
  | exn (e : JsExn)                         -- exception thrown in a handler

/-- `request-promise-native` in its default (simple) mode: rejects on
transport errors and on non-2xx statuses, resolves with the body
otherwise. -/
def requestP (net : Env) (url : String) : Except JsErr Body :=
  match net url with
  | .transportErr e => .error (.transport e)
  | .response code body =>
    if 200 ≤ code ∧ code < 300 then .ok body
    else .error (.statusCode code body.raw)

/-- src/iss_promised.js `fetchMyIP`. -/
def fetchMyIPP (net : Env) : Except JsErr Body :=
  requestP net ipifyURL

/-- src/iss_promised.js `fetchCoordsByIP`: parses the ip-echo body
(`JSON.parse` throwing a SyntaxError, or `.ip` on a null parse result
throwing a TypeError, becomes a rejection) and requests the geolocation
URL built from its `ip` field. -/
def fetchCoordsByIPP (net : Env) (body : Body) : Except JsErr Body :=
  match body.parsed with
  | none => .error (.exn .parseErr)
  | some j =>
    if isNullish j then .error (.exn .typeErr)
    else requestP net (geoURL (getField j "ip"))

/-- src/iss_promised.js `fetchISSFlyOverTimes`: parses the geolocation
body, destructures `lat`/`lon` (destructuring null throws a TypeError,
which becomes a rejection), and requests the pass-time URL. -/
def fetchISSFlyOverTimesP (net : Env) (body : Body) : Except JsErr Body :=
  match body.parsed with
  | none => .error (.exn .parseErr)
  | some j =>
    if isNullish j then .error (.exn .typeErr)
    else requestP net (passURL (getField j "lat") (getField j "lon"))

/-- src/iss_promised.js `nextISSTimesForMyLocation`, paired with the
trace of resolver invocations: a rejected promise skips every later
`.then` handler.  The final handler parses the pass-time body and
returns its `response` field. -/
def nextISSTimesForMyLocationPT (net : Env) : Except JsErr JVal × Trace :=
  match fetchMyIPP net with
  | .error e => (.error e, ⟨1, 0, 0⟩)
  | .ok b1 =>
    match fetchCoordsByIPP net b1 with
    | .error e => (.error e, ⟨1, 1, 0⟩)
    | .ok b2 =>
      match fetchISSFlyOverTimesP net b2 with
      | .error e => (.error e, ⟨1, 1, 1⟩)
      | .ok b3 =>
        match b3.parsed with
        | none => (.error (.exn .parseErr), ⟨1, 1, 1⟩)
        | some j =>
          if isNullish j then (.error (.exn .typeErr), ⟨1, 1, 1⟩)
          else (.ok (getField j "response"), ⟨1, 1, 1⟩)

/-- src/iss_promised.js `nextISSTimesForMyLocation`: the caller-visible
promise outcome. -/
def nextISSTimesForMyLocationP (net : Env) : Except JsErr JVal :=
  (nextISSTimesForMyLocationPT net).1

/-- A callback-style outcome that is not a success callback: either an
error was passed to the callback or an exception escaped. -/
def cbFails : CbOutcome → Bool
  | .called none _ => false
  | _ => true

/-- A rejected promise. -/
def pFails : Except JsErr Body → Bool
  | .error _ => true
  | .ok _ => false

/-! ### Concrete environments used as test inputs -/

/-- ip-echo body `{"ip":"1.2.3.4"}` (200). -/
def ipBodyOK : Body :=
  ⟨"\x7b\"ip\":\"1.2.3.4\"\x7d", some (.obj [("ip", .str "1.2.3.4")])⟩

/-- geolocation body `{"status":"success","lat":37.0,"lon":-122.0}`. -/
def geoBodyOK : Body :=
  ⟨"\x7b\"status\":\"success\",\"lat\":37.0,\"lon\":-122.0\x7d",
   some (.obj [("status", .str "success"), ("lat", .num 37),
               ("lon", .num (-122))])⟩

/-- pass-time body with two pass events. -/
def passBodyOK : Body :=
  ⟨"\x7b\"message\":\"success\",\"response\":[\x7b\"risetime\":1000,\"duration\":600\x7d,\x7b\"risetime\":2000,\"duration\":500\x7d]\x7d",
   some (.obj [("message", .str "success"),
     ("response", .arr
       [.obj [("risetime", .num 1000), ("duration", .num 600)],
        .obj [("risetime", .num 2000), ("duration", .num 500)]])])⟩

/-- The pass-event sequence carried in `passBodyOK`. -/
def passSeq : JVal :=
  .arr [.obj [("risetime", .num 1000), ("duration", .num 600)],
        .obj [("risetime", .num 2000), ("duration", .num 500)]]

/-- All three services healthy, with the bodies above. -/
def envHappy : Env := fun url =>
  if url = ipifyURL then .response 200 ipBodyOK
  else if url = geoURL (.str "1.2.3.4") then .response 200 geoBodyOK
  else if url = passURL (.num 37) (.num (-122)) then .response 200 passBodyOK
  else .transportErr ⟨"ENOTFOUND"⟩

/-- The ip-echo service is unreachable (transport error everywhere). -/
def envIpDown : Env := fun _ =>
  .transportErr ⟨"getaddrinfo ENOTFOUND api64.ipify.org"⟩

/-- geolocation body `{"status":"fail","message":"private range"}`. -/
def geoBodyFail : Body :=
  ⟨"\x7b\"status\":\"fail\",\"message\":\"private range\"\x7d",
   some (.obj [("status", .str "fail"), ("message", .str "private range")])⟩

/-- pass-time body with an empty pass list. -/
def passBodyEmpty : Body :=
  ⟨"\x7b\"message\":\"success\",\"response\":[]\x7d",
   some (.obj [("message", .str "success"), ("response", .arr [])])⟩

/-- The geolocation service answers 200 with `status:"fail"`; the
pass-time service also answers the URL built from undefined
coordinates (which the promise-based pipeline goes on to query). -/
def envGeoFail : Env := fun url =>
  if url = ipifyURL then .response 200 ipBodyOK
  else if url = geoURL (.str "1.2.3.4") then .response 200 geoBodyFail
  else if url = passURL .undefVal .undefVal then .response 200 passBodyEmpty
  else .transportErr ⟨"ENOTFOUND"⟩

/-- pass-time body `{"message":"failure","reason":"invalid params"}`. -/
def passBodyFail : Body :=
  ⟨"\x7b\"message\":\"failure\",\"reason\":\"invalid params\"\x7d",
   some (.obj [("message", .str "failure"), ("reason", .str "invalid params")])⟩

/-- ip-echo and geolocation healthy; the pass-time service answers 200
with `message:"failure"`. -/
def envPassFail : Env := fun url =>
  if url = ipifyURL then .response 200 ipBodyOK
  else if url = geoURL (.str "1.2.3.4") then .response 200 geoBodyOK
  else if url = passURL (.num 37) (.num (-122)) then .response 200 passBodyFail
  else .transportErr ⟨"ENOTFOUND"⟩

/-- An ip-echo body that is not valid JSON. -/
def ipBodyBadJson : Body := ⟨"<html>oops</html>", none⟩

/-- A valid-JSON ip-echo body with no `ip` field. -/
def ipBodyNoIp : Body := ⟨"\x7b\"x\":1\x7d", some (.obj [("x", .num 1)])⟩

/-- The ip-echo service answers 200 with a malformed body. -/
def envIpBadJson : Env := fun url =>
  if url = ipifyURL then .response 200 ipBodyBadJson
  else .transportErr ⟨"ENOTFOUND"⟩

/-- The ip-echo service answers 200 with valid JSON lacking `ip`. -/
def envIpNoIp : Env := fun url =>
  if url = ipifyURL then .response 200 ipBodyNoIp
  else .transportErr ⟨"ENOTFOUND"⟩

/-- Every service answers 404 with body "Not Found". -/
def env404 : Env := fun _ => .response 404 ⟨"Not Found", none⟩

/-- geolocation body `{"status":"success"}`: no `lat`, no `lon`. -/
def geoBodyNoLat : Body :=
  ⟨"\x7b\"status\":\"success\"\x7d", some (.obj [("status", .str "success")])⟩

/-- The geolocation service answers 200 with `status:"success"` but no
coordinate fields. -/
def envGeoNoLat : Env := fun url =>
  if url = geoURL (.str "1.2.3.4") then .response 200 geoBodyNoLat
  else .transportErr ⟨"ENOTFOUND"⟩

/-- A body whose text is the valid JSON document `null`. -/
def jsonNullBody : Body := ⟨"null", some .jnull⟩

/-- The ip-echo service answers 200 with body `null`. -/
def envIpNull : Env := fun url =>
  if url = ipifyURL then .response 200 jsonNullBody
  else .transportErr ⟨"ENOTFOUND"⟩

/-- The geolocation service answers 200 with body `null`. -/
def envGeoNull : Env := fun url =>
  if url = geoURL (.str "1.2.3.4") then .response 200 jsonNullBody
  else .transportErr ⟨"ENOTFOUND"⟩

end IssSpotter

namespace IssSpotter

/-! ### Helper lemmas -/

/-- A value whose `k` field strictly equals the string `s` is not
nullish (a nullish receiver would have thrown before the comparison). -/
theorem isNullish_false_of_isStr {d : JVal} {k s : String}
    (h : isStr (getField d k) s = true) : isNullish d = false := by
  cases d with
  | jnull => simp [getField, isStr] at h
  | undefVal => simp [getField, isStr] at h
  | str t => rfl
  | num n => rfl
  | arr xs => rfl
  | obj fs => rfl

/-- A value whose `k` field reads as a string is not nullish. -/
theorem isNullish_false_of_getField_str {d : JVal} {k s : String}
    (h : getField d k = .str s) : isNullish d = false := by
  cases d with
  | jnull => simp [getField] at h
  | undefVal => simp [getField] at h
  | str t => rfl
  | num n => rfl
  | arr xs => rfl
  | obj fs => rfl

/-! ### Claim theorems -/

/-- C1 (code bug): the callback-based orchestrator does NOT propagate a
failing stage's error to the caller's callback.  With the ip-echo
service down, `fetchMyIP` passes a transport error to the orchestrator's
inner callback, but the orchestrator's error branch reads the
undeclared identifier `err`, so a ReferenceError escapes and the
caller's callback never receives the error value. -/
theorem C1_error_not_propagated :
    fetchMyIP envIpDown =
      .called (some ⟨"getaddrinfo ENOTFOUND api64.ipify.org"⟩) .jnull ∧
    nextISSTimesForMyLocation envIpDown = .thrown (.referenceErr "err") :=
  ⟨rfl, rfl⟩

/-- C2: the first failing stage aborts all remaining stages, in both the
callback-based and the promise-based orchestrator: if the IP resolver
fails the geolocation resolver is never invoked, and if the geolocation
resolver fails the pass-time resolver is never invoked. -/
theorem C2_short_circuit (net : Env) :
    (cbFails (fetchMyIP net) = true →
      (nextISSTimesForMyLocationT net).2.geoCalls = 0 ∧
      (nextISSTimesForMyLocationT net).2.passCalls = 0) ∧
    (∀ ip, fetchMyIP net = .called none ip →
      cbFails (fetchCoordsByIP net ip) = true →
      (nextISSTimesForMyLocationT net).2.passCalls = 0) ∧
    (pFails (fetchMyIPP net) = true →
      (nextISSTimesForMyLocationPT net).2.geoCalls = 0 ∧
      (nextISSTimesForMyLocationPT net).2.passCalls = 0) ∧
    (∀ b, fetchMyIPP net = .ok b →
      pFails (fetchCoordsByIPP net b) = true →
      (nextISSTimesForMyLocationPT net).2.passCalls = 0) := by
  refine ⟨?_, ?_, ?_, ?_⟩
  · intro hfail
    unfold nextISSTimesForMyLocationT
    cases h : fetchMyIP net with
    | thrown e => simp
    | called err v =>
      cases err with
      | some e => simp
      | none => rw [h] at hfail; simp [cbFails] at hfail
  · intro ip hip hfail
    unfold nextISSTimesForMyLocationT
    rw [hip]
    cases h : fetchCoordsByIP net ip with
    | thrown e => simp [h]
    | called err v =>
      cases err with
      | some e => simp [h]
      | none => rw [h] at hfail; simp [cbFails] at hfail
  · intro hfail
    unfold nextISSTimesForMyLocationPT
    cases h : fetchMyIPP net with
    | error e => simp
    | ok b => rw [h] at hfail; simp [pFails] at hfail
  · intro b hb hfail
    unfold nextISSTimesForMyLocationPT
    rw [hb]
    cases h : fetchCoordsByIPP net b with
    | error e => simp [h]
    | ok b2 => rw [h] at hfail; simp [pFails] at hfail

/-- Witness for C2: with the ip-echo service down, both orchestrators
leave the geolocation stage uninvoked. -/
theorem C2_short_circuit_witness :
    (nextISSTimesForMyLocationT envIpDown).2.geoCalls = 0 ∧
    (nextISSTimesForMyLocationPT envIpDown).2.geoCalls = 0 :=
  ⟨((C2_short_circuit envIpDown).1 rfl).1,
   ((C2_short_circuit envIpDown).2.2.1 rfl).1⟩

/-- C3: in the end-to-end happy-path scenario (ip-echo, geolocation and
pass-time services all respond 200 with well-formed bodies), both
orchestrators deliver exactly the pass-event sequence carried by the
pass-time response, unchanged. -/
theorem C3_happy_path :
    nextISSTimesForMyLocation envHappy = .called none passSeq ∧
    nextISSTimesForMyLocationP envHappy = .ok passSeq :=
  ⟨rfl, rfl⟩

/-- C4 counterexample: the promise-based variant performs no
`status:"fail"` check.  With the geolocation service answering 200 and
`status:"fail"`, the promise pipeline does not produce a service-logic
error: it goes on to query the pass-time service with undefined
coordinates and resolves successfully. -/
theorem C4_counterexample :
    envGeoFail (geoURL (.str "1.2.3.4")) = .response 200 geoBodyFail ∧
    isStr (getField (.obj [("status", .str "fail"),
      ("message", .str "private range")]) "status") "fail" = true ∧
    nextISSTimesForMyLocationP envGeoFail = .ok (.arr []) :=
  ⟨rfl, rfl, rfl⟩

/-- C4 amended: for every 200 geolocation response whose body's `status`
field equals "fail", the CALLBACK-BASED `fetchCoordsByIP` produces a
service-logic error carrying the response body and never a coordinate
pair; the promise-based variant performs no such check. -/
theorem C4_cb_geo_fail (net : Env) (ip : JVal) (body : Body) (d : JVal)
    (hres : net (geoURL ip) = .response 200 body)
    (hp : body.parsed = some d)
    (hf : isStr (getField d "status") "fail" = true) :
    fetchCoordsByIP net ip =
      .called (some ⟨"Coordinates api returned status fail. Response: " ++
        body.raw⟩) .jnull := by
  unfold fetchCoordsByIP
  rw [hres]
  simp [hp, hf, isNullish_false_of_isStr hf]

/-- Witness for C4: at the concrete `status:"fail"` response. -/
theorem C4_cb_geo_fail_witness :
    fetchCoordsByIP envGeoFail (.str "1.2.3.4") =
      .called (some ⟨"Coordinates api returned status fail. Response: " ++
        geoBodyFail.raw⟩) .jnull :=
  C4_cb_geo_fail envGeoFail (.str "1.2.3.4") geoBodyFail
    (.obj [("status", .str "fail"), ("message", .str "private range")])
    rfl rfl rfl

/-- C5 counterexample: the promise-based variant performs no
`message:"failure"` check.  With the pass-time service answering 200 and
`message:"failure"`, the promise pipeline resolves successfully with the
body's (absent) `response` field, i.e. with undefined — not with a
service-logic error. -/
theorem C5_counterexample :
    envPassFail (passURL (.num 37) (.num (-122))) = .response 200 passBodyFail ∧
    isStr (getField (.obj [("message", .str "failure"),
      ("reason", .str "invalid params")]) "message") "failure" = true ∧
    nextISSTimesForMyLocationP envPassFail = .ok .undefVal :=
  ⟨rfl, rfl, rfl⟩

/-- C5 amended: for every 200 pass-time response whose body's `message`
field equals "failure", the CALLBACK-BASED `fetchISSFlyOverTimes`
produces a service-logic error carrying the response body and never a
pass-event sequence; the promise-based variant performs no such check. -/
theorem C5_cb_pass_failure (net : Env) (coords : JVal) (body : Body) (d : JVal)
    (hres : net (passURL (getField coords "lat") (getField coords "lon")) =
      .response 200 body)
    (hp : body.parsed = some d)
    (hf : isStr (getField d "message") "failure" = true) :
    fetchISSFlyOverTimes net coords =
      .called (some ⟨"ISS api returned status fail. Response: " ++
        body.raw⟩) .jnull := by
  unfold fetchISSFlyOverTimes
  rw [hres]
  simp [hp, hf, isNullish_false_of_isStr hf]

/-- Witness for C5: at the concrete `message:"failure"` response. -/
theorem C5_cb_pass_failure_witness :
    fetchISSFlyOverTimes envPassFail
        (.obj [("lat", .num 37), ("lon", .num (-122))]) =
      .called (some ⟨"ISS api returned status fail. Response: " ++
        passBodyFail.raw⟩) .jnull :=
  C5_cb_pass_failure envPassFail (.obj [("lat", .num 37), ("lon", .num (-122))])
    passBodyFail
    (.obj [("message", .str "failure"), ("reason", .str "invalid params")])
    rfl rfl rfl

/-- C6 counterexample: `fetchMyIP` does not surface parse problems
through the callback.  A malformed 200 body makes `JSON.parse` throw a
SyntaxError, so the exception escapes and the callback is never
invoked; a 200 body that is the valid JSON document `null` (which lacks
`ip`) makes `JSON.parse(body).ip` throw a TypeError, again bypassing
the callback; a valid-JSON object body without an `ip` field yields a
SUCCESS callback carrying undefined, not an error. -/
theorem C6_counterexample :
    fetchMyIP envIpBadJson = .thrown .parseErr ∧
    fetchMyIP envIpNull = .thrown .typeErr ∧
    fetchMyIP envIpNoIp = .called none .undefVal :=
  ⟨rfl, rfl, rfl⟩

/-- C6 amended: on a 200 ip-echo response, a body that fails to parse
makes the SyntaxError escape `fetchMyIP` (the callback channel is
bypassed); a body parsing to JSON `null` makes the `.ip` access throw a
TypeError (again bypassing the callback); and a body parsing to a
non-nullish value that lacks `ip` produces a success callback carrying
undefined.  In no case is a parse error surfaced through the callback. -/
theorem C6_parse_behaviour (net : Env) (body : Body)
    (hres : net ipifyURL = .response 200 body) :
    (body.parsed = none → fetchMyIP net = .thrown .parseErr) ∧
    (body.parsed = some .jnull → fetchMyIP net = .thrown .typeErr) ∧
    (∀ j, body.parsed = some j → isNullish j = false →
      getField j "ip" = .undefVal → fetchMyIP net = .called none .undefVal) := by
  refine ⟨?_, ?_, ?_⟩
  · intro hp
    unfold fetchMyIP
    rw [hres]
    simp [hp]
  · intro hp
    unfold fetchMyIP
    rw [hres]
    simp [hp, isNullish]
  · intro j hp hnn hip
    unfold fetchMyIP
    rw [hres]
    simp [hp, hnn, hip]

/-- Witness for C6: the three concrete degenerate bodies. -/
theorem C6_parse_behaviour_witness :
    fetchMyIP envIpBadJson = .thrown .parseErr ∧
    fetchMyIP envIpNull = .thrown .typeErr ∧
    fetchMyIP envIpNoIp = .called none .undefVal :=
  ⟨(C6_parse_behaviour envIpBadJson ipBodyBadJson rfl).1 rfl,
   (C6_parse_behaviour envIpNull jsonNullBody rfl).2.1 rfl,
   (C6_parse_behaviour envIpNoIp ipBodyNoIp rfl).2.2
     (.obj [("x", .num 1)]) rfl rfl rfl⟩

/-- C7: on a 200 ip-echo response whose body parses to an object whose
`ip` field is a string, the callback-based `fetchMyIP` passes back
exactly that string, and the promise-based `fetchCoordsByIP` uses
exactly that string (untransformed) in the geolocation URL. -/
theorem C7_ip_verbatim (net : Env) (body : Body) (j : JVal) (s : String)
    (hres : net ipifyURL = .response 200 body)
    (hp : body.parsed = some j)
    (hip : getField j "ip" = .str s) :
    fetchMyIP net = .called none (.str s) ∧
    fetchCoordsByIPP net body = requestP net ("http://ip-api.com/json/" ++ s) := by
  constructor
  · unfold fetchMyIP
    rw [hres]
    simp [hp, hip, isNullish_false_of_getField_str hip]
  · unfold fetchCoordsByIPP
    simp [hp, hip, isNullish_false_of_getField_str hip, geoURL, tmpl]

/-- Witness for C7: the happy-path ip-echo response. -/
theorem C7_ip_verbatim_witness :
    fetchMyIP envHappy = .called none (.str "1.2.3.4") ∧
    fetchCoordsByIPP envHappy ipBodyOK =
      requestP envHappy ("http://ip-api.com/json/" ++ "1.2.3.4") :=
  C7_ip_verbatim envHappy ipBodyOK (.obj [("ip", .str "1.2.3.4")]) "1.2.3.4"
    rfl rfl rfl

/-- C8: at each of the three callback-based resolvers, a non-200 HTTP
status produces an error callback (never a success value) whose message
contains both the numeric status code and the raw response body. -/
theorem C8_status_error (net : Env) (code : Int) (body : Body)
    (hcode : code ≠ 200) :
    (net ipifyURL = .response code body →
      fetchMyIP net = .called (some ⟨"Status Code " ++ toString code ++
        " when fetching IP. Response: " ++ body.raw⟩) .jnull) ∧
    (∀ ip, net (geoURL ip) = .response code body →
      fetchCoordsByIP net ip = .called (some ⟨"Status Code " ++ toString code ++
        " when fetching coordinates. Response: " ++ body.raw⟩) .jnull) ∧
    (∀ coords,
      net (passURL (getField coords "lat") (getField coords "lon")) =
        .response code body →
      fetchISSFlyOverTimes net coords =
        .called (some ⟨"Status Code " ++ toString code ++
          " when fetching iss data. Response: " ++ body.raw⟩) .jnull) := by
  refine ⟨?_, ?_, ?_⟩
  · intro h
    unfold fetchMyIP
    rw [h]
    simp [hcode]
  · intro ip h
    unfold fetchCoordsByIP
    rw [h]
    simp [hcode]
  · intro coords h
    unfold fetchISSFlyOverTimes
    rw [h]
    simp [hcode]

/-- Witness for C8: every service answering 404 "Not Found". -/
theorem C8_status_error_witness :
    fetchMyIP env404 = .called (some ⟨"Status Code " ++ toString (404 : Int) ++
      " when fetching IP. Response: " ++ "Not Found"⟩) .jnull ∧
    fetchCoordsByIP env404 (.str "1.2.3.4") =
      .called (some ⟨"Status Code " ++ toString (404 : Int) ++
        " when fetching coordinates. Response: " ++ "Not Found"⟩) .jnull ∧
    fetchISSFlyOverTimes env404 (.obj []) =
      .called (some ⟨"Status Code " ++ toString (404 : Int) ++
        " when fetching iss data. Response: " ++ "Not Found"⟩) .jnull :=
  ⟨(C8_status_error env404 404 ⟨"Not Found", none⟩ (by decide)).1 rfl,
   (C8_status_error env404 404 ⟨"Not Found", none⟩ (by decide)).2.1
     (.str "1.2.3.4") rfl,
   (C8_status_error env404 404 ⟨"Not Found", none⟩ (by decide)).2.2
     (.obj []) rfl⟩

/-- C9: both orchestrators are pure functions of the fixed assignment of
service responses: two invocations against the same assignment always
produce equal outcomes; no state persists between invocations. -/
theorem C9_deterministic (net : Env) (o₁ o₂ : CbOutcome)
    (p₁ p₂ : Except JsErr JVal)
    (h₁ : o₁ = nextISSTimesForMyLocation net)
    (h₂ : o₂ = nextISSTimesForMyLocation net)
    (g₁ : p₁ = nextISSTimesForMyLocationP net)
    (g₂ : p₂ = nextISSTimesForMyLocationP net) :
    o₁ = o₂ ∧ p₁ = p₂ :=
  ⟨h₁.trans h₂.symm, g₁.trans g₂.symm⟩

/-- Witness for C9: two happy-path invocations agree. -/
theorem C9_deterministic_witness :
    nextISSTimesForMyLocation envHappy = nextISSTimesForMyLocation envHappy ∧
    nextISSTimesForMyLocationP envHappy = nextISSTimesForMyLocationP envHappy :=
  C9_deterministic envHappy (nextISSTimesForMyLocation envHappy)
    (nextISSTimesForMyLocation envHappy) (nextISSTimesForMyLocationP envHappy)
    (nextISSTimesForMyLocationP envHappy) rfl rfl rfl rfl

/-- C10 counterexample: a 200 geolocation response whose body is the
valid JSON document `null` is in the claim's scope (valid JSON, no
`status` field equal to "fail", `lat`/`lon` absent), but there the real
code throws a TypeError at `data.status === 'fail'` and invokes no
callback at all — it does not report success with undefined fields. -/
theorem C10_counterexample :
    envGeoNull (geoURL (.str "1.2.3.4")) = .response 200 jsonNullBody ∧
    jsonNullBody.parsed = some .jnull ∧
    fetchCoordsByIP envGeoNull (.str "1.2.3.4") = .thrown .typeErr :=
  ⟨rfl, rfl, rfl⟩

/-- C10 amended: on a 200 geolocation response with valid JSON parsing
to a NON-NULLISH value whose `status` is not "fail" and whose `lat` or
`lon` field is absent, the callback-based `fetchCoordsByIP` reports
success (null error), passing a coordinate object whose missing fields
are undefined — it reports no error.  (A body parsing to `null` instead
throws a TypeError at the `status` check and invokes no callback, as
the counterexample shows.) -/
theorem C10_missing_coords_success (net : Env) (ip : JVal) (body : Body)
    (d : JVal)
    (hres : net (geoURL ip) = .response 200 body)
    (hp : body.parsed = some d)
    (hnn : isNullish d = false)
    (hnf : isStr (getField d "status") "fail" = false)
    (_hmiss : getField d "lat" = .undefVal ∨ getField d "lon" = .undefVal) :
    fetchCoordsByIP net ip =
      .called none (.obj [("lat", getField d "lat"),
                          ("lon", getField d "lon")]) := by
  unfold fetchCoordsByIP
  rw [hres]
  simp [hp, hnn, hnf]

/-- Witness for C10: a `status:"success"` body with no coordinates. -/
theorem C10_missing_coords_success_witness :
    fetchCoordsByIP envGeoNoLat (.str "1.2.3.4") =
      .called none (.obj [("lat", .undefVal), ("lon", .undefVal)]) :=
  C10_missing_coords_success envGeoNoLat (.str "1.2.3.4") geoBodyNoLat
    (.obj [("status", .str "success")]) rfl rfl rfl rfl (.inl rfl)

end IssSpotter
